import Mathlib

/-!
Shallow embedding of `src/app.py`, the AI Financial Document Analyzer: a
Streamlit script that loads up to three uploaded tabular files with pandas
(`load_file`), sends each table through a fixed prompt to a remote
generative-text service (`generate_summary`), and renders each table with an
optional line chart (`visualize`), all driven by one generate-button handler.

The pandas DataFrame is embedded as a list of dtype-tagged named columns plus
the index length. The remote service is an oracle parameter mapping the
prompt to either the completion text or the exception message caught by the
bare `except` in the source. Streamlit calls are recorded as a list of
effects, and pipeline steps (load, summarize, render) as a trace of
operations, so that claims about what runs and what is displayed become
statements about those lists.
-/

namespace FinAnalyzer

/-- Payload of one pandas column: each column carries a dtype, so a column is
either numeric-typed or text-typed, holding its cells in row order. -/
inductive ColData where
  | num (xs : List Int)
  | text (xs : List String)
deriving DecidableEq

/-- Whether the column dtype is numeric, which is what
`select_dtypes(include="number")` keeps. -/
def ColData.isNum : ColData → Bool
  | .num _ => true
  | .text _ => false

/-- Number of cells in the column. -/
def ColData.length : ColData → Nat
  | .num xs => xs.length
  | .text xs => xs.length

/-- A named column of a pandas DataFrame. -/
structure Column where
  name : String
  data : ColData
deriving DecidableEq

/-- In-memory table (pandas DataFrame): ordered named columns plus the length
of the row index, which pandas keeps even when columns are dropped. -/
structure DataFrame where
  cols : List Column
  nrows : Nat
deriving DecidableEq

/-- Uniform row count across columns, the TabularDocument well-formedness of
the data model. -/
def DataFrame.wf (df : DataFrame) : Prop :=
  ∀ c ∈ df.cols, c.data.length = df.nrows

/-- pandas `DataFrame.empty`: true iff either axis has length zero. -/
def DataFrame.empty (df : DataFrame) : Bool :=
  df.cols.isEmpty || df.nrows == 0

/-- pandas `select_dtypes(include="number")` as used at line 110: keeps
exactly the numeric-typed columns and leaves the row index unchanged. -/
def select_number (df : DataFrame) : DataFrame :=
  { cols := df.cols.filter (fun c => c.data.isNum), nrows := df.nrows }

/-- Python `str.endswith`: the character sequence of the needle is a suffix
of the character sequence of the subject. -/
def pyEndsWith (s needle : String) : Bool :=
  needle.data.isSuffixOf s.data

/-- An uploaded file handle as `load_file` consumes it: a `name` whose
extension is sniffed, and the outcome of handing the stream to each pandas
reader. `csvParse = none` models `pd.read_csv` raising on this stream, which
the bare `except` of `load_file` turns into `None`; `xlsxParse` plays the
same role for `pd.read_excel` (first sheet). -/
structure UploadedFile where
  name : String
  csvParse : Option DataFrame
  xlsxParse : Option DataFrame
deriving DecidableEq

/-- `load_file` (src/app.py lines 37-54): a missing file gives `None`; a name
ending in ".csv" goes to `pd.read_csv`, a name ending in ".xlsx" to
`pd.read_excel`, any other name gives `None`; a reader exception is swallowed
into `None` by the bare `except`. -/
def load_file (file : Option UploadedFile) : Option DataFrame :=
  match file with
  | none => none
  | some f =>
    if pyEndsWith f.name ".csv" then f.csvParse
    else if pyEndsWith f.name ".xlsx" then f.xlsxParse
    else none

/-- Python single-quote character, used by `str(dict)` around text values. -/
def sq : String := (Char.ofNat 39).toString

/-- Rendering of the values of one column as Python prints the inner dict of
`DataFrame.to_dict()`: row index to value, text cells quoted (quote escaping
inside cells is not modelled; no claim depends on it). -/
def colDictStr : ColData → String
  | .num xs =>
      "\x7b" ++ String.intercalate ", "
        (xs.enum.map fun p => toString p.1 ++ ": " ++ toString p.2) ++ "\x7d"
  | .text xs =>
      "\x7b" ++ String.intercalate ", "
        (xs.enum.map fun p => toString p.1 ++ ": " ++ sq ++ p.2 ++ sq) ++ "\x7d"

/-- Textual table representation `str(data.to_dict())` interpolated into the
prompt at line 66 and 75. -/
def dataDictStr (df : DataFrame) : String :=
  "\x7b" ++ String.intercalate ", "
    (df.cols.map fun c => sq ++ c.name ++ sq ++ ": " ++ colDictStr c.data) ++ "\x7d"

/-- The fixed prompt template of `generate_summary` (lines 68-85). -/
def promptFor (df : DataFrame) (doc_type : String) : String :=
  "\nYou are a professional financial analyst.\n\nDocument Type: " ++ doc_type ++
  "\n\nAnalyze the following data:\n\n" ++ dataDictStr df ++
  "\n\nProvide:\n- Key Metrics\n- Trends\n- Risks\n- Financial Health\n- Recommendations\n\nGive a clear summary.\n"

/-- One remote generative-text call, `model.generate_content(prompt)` followed
by `.text`: either the completion text, or the message `str(e)` of whatever
exception the call raised. -/
abbrev Oracle : Type := String → Except String String

/-- `generate_summary` (lines 61-95), instrumented with the number of remote
calls it makes: `None` data short-circuits to the fixed literal with zero
remote calls; otherwise exactly one call is made and either its text is
returned verbatim or, on any exception `e`, the string `"AI Error: " ++ str(e)`. -/
def generate_summary (oracle : Oracle) (data : Option DataFrame) (doc_type : String) :
    String × Nat :=
  match data with
  | none => ("No data found.", 0)
  | some df =>
    match oracle (promptFor df doc_type) with
    | .ok t => (t, 1)
    | .error e => ("AI Error: " ++ e, 1)

/-- Streamlit UI effects the app emits, in emission order. -/
inductive Effect where
  | errorMsg (s : String)
  | successMsg (s : String)
  | header (s : String)
  | subheader (s : String)
  | write (s : String)
  | dataframe (df : DataFrame)
  | line_chart (df : DataFrame)
  | info (s : String)
  | warning (s : String)
deriving DecidableEq

/-- `visualize` (lines 102-118): the title subheader, then for present data
the full table followed by a line chart of the numeric selection when
`not numeric.empty`, else the no-numeric-data notice; for absent data the
no-data warning. -/
def visualize (title : String) (data : Option DataFrame) : List Effect :=
  Effect.subheader title ::
    (match data with
     | some d =>
        Effect.dataframe d ::
          (let numeric := select_number d
           if !numeric.empty then [Effect.line_chart numeric]
           else [Effect.info "No numeric data available"])
     | none => [Effect.warning "No data uploaded"])

/-- Pipeline operations, recorded in execution order. -/
inductive Op where
  | load
  | summarize (label : String)
  | render (title : String)
deriving DecidableEq

/-- A `load_file` call together with its trace entry. -/
def load_fileT (file : Option UploadedFile) : Option DataFrame × List Op :=
  (load_file file, [Op.load])

/-- A `generate_summary` call together with its trace entry. -/
def generate_summaryT (oracle : Oracle) (data : Option DataFrame) (doc_type : String) :
    String × List Op :=
  ((generate_summary oracle data doc_type).1, [Op.summarize doc_type])

/-- A `visualize` call together with its trace entry. -/
def visualizeT (title : String) (data : Option DataFrame) : List Effect × List Op :=
  (visualize title data, [Op.render title])

/-- The three file-uploader slots (lines 144-162). -/
structure Uploads where
  balance_file : Option UploadedFile
  profit_file : Option UploadedFile
  cash_file : Option UploadedFile
deriving DecidableEq

/-- Everything one run of the generate-button handler computes. -/
structure ReportRun where
  balance_data : Option DataFrame
  profit_data : Option DataFrame
  cash_data : Option DataFrame
  balance_summary : String
  profit_summary : String
  cash_summary : String
  effects : List Effect
  ops : List Op
deriving DecidableEq

/-- The generate-button handler (lines 171-224): load each slot, generate the
three summaries with the three literal labels, then display the success
banner, the summaries header, the three summary texts, the visualizations
header and the three `visualize` calls. The three remote calls are received
by `o1`, `o2`, `o3` in call order. -/
def generateReport (o1 o2 o3 : Oracle) (u : Uploads) : ReportRun :=
  let bd := load_fileT u.balance_file
  let pd := load_fileT u.profit_file
  let cd := load_fileT u.cash_file
  let bs := generate_summaryT o1 bd.1 "Balance Sheet"
  let ps := generate_summaryT o2 pd.1 "Profit and Loss"
  let cs := generate_summaryT o3 cd.1 "Cash Flow"
  let v1 := visualizeT "Balance Sheet Data" bd.1
  let v2 := visualizeT "Profit & Loss Data" pd.1
  let v3 := visualizeT "Cash Flow Data" cd.1
  { balance_data := bd.1, profit_data := pd.1, cash_data := cd.1,
    balance_summary := bs.1, profit_summary := ps.1, cash_summary := cs.1,
    effects :=
      [Effect.successMsg "Analysis Completed ✅", Effect.header "📝 AI Summaries",
       Effect.write bs.1, Effect.write ps.1, Effect.write cs.1,
       Effect.header "📈 Visualizations"] ++ v1.1 ++ v2.1 ++ v3.1,
    ops := bd.2 ++ pd.2 ++ cd.2 ++ bs.2 ++ ps.2 ++ cs.2 ++ v1.2 ++ v2.2 ++ v3.2 }

/-- Outcome of the startup key check (lines 15-21): when `os.getenv` yields
nothing or the empty string, `not API_KEY` is true (Python falsiness) and the
script shows the error and calls `st.stop`; otherwise execution continues. -/
inductive StartupResult where
  | halted (effects : List Effect)
  | running (apiKey : String)
deriving DecidableEq

/-- The startup API-key check itself. -/
def startupCheck (env : String → Option String) : StartupResult :=
  match env "GEMINI_API_KEY" with
  | none => .halted [Effect.errorMsg "API Key not found! Check .env file"]
  | some k =>
    if k = "" then .halted [Effect.errorMsg "API Key not found! Check .env file"]
    else .running k

/-- One run of the script: the startup key check gates everything; when it
passes and the generate button was pressed, the handler runs. The second
component records which pipeline operations executed in the run. -/
def runApp (env : String → Option String) (o1 o2 o3 : Oracle) (u : Uploads)
    (pressed : Bool) : List Effect × List Op :=
  match startupCheck env with
  | .halted effs => (effs, [])
  | .running _ =>
    if pressed then
      let r := generateReport o1 o2 o3 u
      (r.effects, r.ops)
    else ([], [])

/-- Sample table from the spec scenario: Revenue [100, 120], Region [US, EU]. -/
def sampleDf : DataFrame :=
  { cols := [{ name := "Revenue", data := ColData.num [100, 120] },
             { name := "Region", data := ColData.text ["US", "EU"] }],
    nrows := 2 }

/-- A table with one numeric column and zero rows. -/
def zeroRowDf : DataFrame :=
  { cols := [{ name := "A", data := ColData.num [] }], nrows := 0 }

/-- A stub oracle that always succeeds with a fixed completion. -/
def okOracle : Oracle := fun _ => Except.ok "Revenue grew 20%."

/-- A stub oracle that always fails with a fixed timeout message. -/
def timeoutOracle : Oracle := fun _ => Except.error "timeout"

/-- No file in any slot. -/
def noUploads : Uploads :=
  { balance_file := none, profit_file := none, cash_file := none }

/-- Two strings with the same character data are equal. -/
theorem str_eq_of_data_eq (s t : String) (h : s.data = t.data) : s = t := by
  cases s; cases t; exact congrArg String.mk h

/-- Unfolding of the loader on a file whose name ends in neither supported
extension. -/
theorem load_file_none_of_not_ends (g : UploadedFile)
    (hc : pyEndsWith g.name ".csv" = false) (hx : pyEndsWith g.name ".xlsx" = false) :
    load_file (some g) = none := by
  simp [load_file, hc, hx]

/-- The numeric selection is nonempty in the pandas sense iff it has at least
one column and the table has at least one row. -/
theorem select_number_empty_iff (df : DataFrame) :
    (select_number df).empty = false ↔
      (df.cols.filter (fun c => c.data.isNum) ≠ [] ∧ df.nrows ≠ 0) := by
  simp [select_number, DataFrame.empty]

/-- Membership of a line chart in the presenter output, characterised. -/
theorem visualize_chart_mem (title : String) (df c : DataFrame) :
    Effect.line_chart c ∈ visualize title (some df) ↔
      (c = select_number df ∧ (select_number df).empty = false) := by
  by_cases h : (select_number df).empty
  · simp [visualize, h]
  · simp [visualize, h, Bool.eq_false_iff.mpr h]

/-- C1: for every oracle and every document-type label, `generate_summary`
applied to the Absent document returns exactly the literal "No data found."
and performs zero remote calls. -/
theorem summarize_absent_fixed (o : Oracle) (label : String) :
    generate_summary o none label = ("No data found.", 0) := rfl

/-- C2 counterexample: when the remote completion succeeds with the empty
string, the summary returned for a present document is the empty string, so
the result is not always non-empty. -/
theorem summarize_empty_completion :
    (generate_summary (fun _ => Except.ok "") (some sampleDf) "Balance Sheet").1 = "" := rfl

/-- C2 (amended): for every non-Absent document and label the summarizer
never raises and returns exhaustively either the completion text verbatim on
success or "AI Error: {details}" on any failure; the error string is never
empty, so the result can be empty only when the completion text itself is. -/
theorem summarize_present_total (o : Oracle) (df : DataFrame) (label : String) :
    (∀ t, o (promptFor df label) = Except.ok t →
        (generate_summary o (some df) label).1 = t) ∧
    (∀ e, o (promptFor df label) = Except.error e →
        (generate_summary o (some df) label).1 = "AI Error: " ++ e ∧
        (generate_summary o (some df) label).1 ≠ "") := by
  constructor
  · intro t ht
    simp [generate_summary, ht]
  · intro e he
    refine ⟨by simp [generate_summary, he], ?_⟩
    simp only [generate_summary, he]
    intro hcon
    have hd := congrArg String.data hcon
    rw [String.data_append] at hd
    have h0 : "AI Error: ".data = [] := (List.append_eq_nil.mp hd).1
    exact absurd h0 (by decide)

/-- Witness for C2 at a failing oracle over the sample table. -/
theorem summarize_present_total_w :
    timeoutOracle (promptFor sampleDf "Cash Flow") = Except.error "timeout" ∧
    ((generate_summary timeoutOracle (some sampleDf) "Cash Flow").1 = "AI Error: " ++ "timeout" ∧
      (generate_summary timeoutOracle (some sampleDf) "Cash Flow").1 ≠ "") :=
  ⟨rfl, (summarize_present_total timeoutOracle sampleDf "Cash Flow").2 "timeout" rfl⟩

/-- C4 counterexample: `zeroRowDf` has a numeric column, yet `visualize`
renders the no-numeric-data notice and no line chart at all, because the
zero-row numeric selection is empty in the pandas sense. -/
theorem visualize_zero_rows_no_chart :
    (zeroRowDf.cols.any fun c => c.data.isNum) = true ∧
    ¬ (∃ c, Effect.line_chart c ∈ visualize "T" (some zeroRowDf)) := by
  refine ⟨by decide, ?_⟩
  rintro ⟨c, hc⟩
  have h := (visualize_chart_mem "T" zeroRowDf c).mp hc
  exact absurd h.2 (by decide)

/-- C4 (amended): the numeric selection is exactly the numeric-typed columns;
any rendered chart is over exactly that selection, so non-numeric columns are
never charted; the chart is rendered when the selection has at least one
column and the table at least one row, and otherwise the no-numeric-data
notice is displayed. -/
theorem visualize_numeric_selection (title : String) (df : DataFrame) :
    (select_number df).cols = df.cols.filter (fun c => c.data.isNum) ∧
    (∀ c, Effect.line_chart c ∈ visualize title (some df) → c = select_number df) ∧
    (df.cols.filter (fun c => c.data.isNum) ≠ [] → df.nrows ≠ 0 →
        Effect.line_chart (select_number df) ∈ visualize title (some df)) ∧
    ((df.cols.filter (fun c => c.data.isNum) = [] ∨ df.nrows = 0) →
        Effect.info "No numeric data available" ∈ visualize title (some df)) := by
  refine ⟨rfl, ?_, ?_, ?_⟩
  · intro c hc
    exact ((visualize_chart_mem title df c).mp hc).1
  · intro h1 h2
    exact (visualize_chart_mem title df _).mpr
      ⟨rfl, (select_number_empty_iff df).mpr ⟨h1, h2⟩⟩
  · intro h
    have he : (select_number df).empty = true := by
      rcases h with h | h
      · simp [select_number, DataFrame.empty, h]
      · simp [select_number, DataFrame.empty, h]
    simp [visualize, he]

/-- Witness for C4 on the sample table, whose Revenue column is charted. -/
theorem visualize_numeric_selection_w :
    (sampleDf.cols.filter (fun c => c.data.isNum) ≠ [] ∧ sampleDf.nrows ≠ 0) ∧
    Effect.line_chart (select_number sampleDf) ∈
      visualize "Profit & Loss Data" (some sampleDf) :=
  ⟨⟨by decide, by decide⟩,
    (visualize_numeric_selection "Profit & Loss Data" sampleDf).2.2.1 (by decide) (by decide)⟩

/-- C5: every document-type label passed to the summarizer during a report
run is one of exactly the three fixed strings; the operation trace moreover
shows each of them occurring exactly once, between the loads and the
renders. -/
theorem report_labels_fixed (o1 o2 o3 : Oracle) (u : Uploads) :
    (generateReport o1 o2 o3 u).ops =
      [Op.load, Op.load, Op.load,
       Op.summarize "Balance Sheet", Op.summarize "Profit and Loss", Op.summarize "Cash Flow",
       Op.render "Balance Sheet Data", Op.render "Profit & Loss Data", Op.render "Cash Flow Data"] ∧
    (∀ l, Op.summarize l ∈ (generateReport o1 o2 o3 u).ops →
        l = "Balance Sheet" ∨ l = "Profit and Loss" ∨ l = "Cash Flow") := by
  refine ⟨rfl, ?_⟩
  intro l hl
  simp [generateReport, load_fileT, generate_summaryT, visualizeT] at hl
  tauto

/-- Witness for C5: the Cash Flow call occurs and its label is on the list. -/
theorem report_labels_fixed_w :
    Op.summarize "Cash Flow" ∈ (generateReport okOracle okOracle okOracle noUploads).ops ∧
    ("Cash Flow" = "Balance Sheet" ∨ "Cash Flow" = "Profit and Loss" ∨
      "Cash Flow" = "Cash Flow") :=
  ⟨by decide,
    (report_labels_fixed okOracle okOracle okOracle noUploads).2 "Cash Flow" (by decide)⟩

/-- C6: replacing the oracle of any single slot's remote call (for instance
by a failing one) changes at most that slot's summary text. Block one
perturbs the Balance Sheet call, block two the Profit and Loss call, block
three the Cash Flow call; in each block the other two summaries and all
three loaded tables are identical to the unperturbed run, and the perturbed
run still emits its full effect list, equal to the unperturbed one in every
position — the three visualization segments included — except the one
written summary of the perturbed slot. -/
theorem report_fault_isolation (o1 o2 o3 o1' o2' o3' : Oracle) (u : Uploads) :
    ((generateReport o1' o2 o3 u).profit_summary = (generateReport o1 o2 o3 u).profit_summary ∧
     (generateReport o1' o2 o3 u).cash_summary = (generateReport o1 o2 o3 u).cash_summary ∧
     (generateReport o1' o2 o3 u).balance_data = (generateReport o1 o2 o3 u).balance_data ∧
     (generateReport o1' o2 o3 u).profit_data = (generateReport o1 o2 o3 u).profit_data ∧
     (generateReport o1' o2 o3 u).cash_data = (generateReport o1 o2 o3 u).cash_data ∧
     (generateReport o1' o2 o3 u).effects =
       [Effect.successMsg "Analysis Completed ✅", Effect.header "📝 AI Summaries",
        Effect.write (generateReport o1' o2 o3 u).balance_summary,
        Effect.write (generateReport o1 o2 o3 u).profit_summary,
        Effect.write (generateReport o1 o2 o3 u).cash_summary,
        Effect.header "📈 Visualizations"]
         ++ visualize "Balance Sheet Data" (generateReport o1 o2 o3 u).balance_data
         ++ visualize "Profit & Loss Data" (generateReport o1 o2 o3 u).profit_data
         ++ visualize "Cash Flow Data" (generateReport o1 o2 o3 u).cash_data) ∧
    ((generateReport o1 o2' o3 u).balance_summary = (generateReport o1 o2 o3 u).balance_summary ∧
     (generateReport o1 o2' o3 u).cash_summary = (generateReport o1 o2 o3 u).cash_summary ∧
     (generateReport o1 o2' o3 u).balance_data = (generateReport o1 o2 o3 u).balance_data ∧
     (generateReport o1 o2' o3 u).profit_data = (generateReport o1 o2 o3 u).profit_data ∧
     (generateReport o1 o2' o3 u).cash_data = (generateReport o1 o2 o3 u).cash_data ∧
     (generateReport o1 o2' o3 u).effects =
       [Effect.successMsg "Analysis Completed ✅", Effect.header "📝 AI Summaries",
        Effect.write (generateReport o1 o2 o3 u).balance_summary,
        Effect.write (generateReport o1 o2' o3 u).profit_summary,
        Effect.write (generateReport o1 o2 o3 u).cash_summary,
        Effect.header "📈 Visualizations"]
         ++ visualize "Balance Sheet Data" (generateReport o1 o2 o3 u).balance_data
         ++ visualize "Profit & Loss Data" (generateReport o1 o2 o3 u).profit_data
         ++ visualize "Cash Flow Data" (generateReport o1 o2 o3 u).cash_data) ∧
    ((generateReport o1 o2 o3' u).balance_summary = (generateReport o1 o2 o3 u).balance_summary ∧
     (generateReport o1 o2 o3' u).profit_summary = (generateReport o1 o2 o3 u).profit_summary ∧
     (generateReport o1 o2 o3' u).balance_data = (generateReport o1 o2 o3 u).balance_data ∧
     (generateReport o1 o2 o3' u).profit_data = (generateReport o1 o2 o3 u).profit_data ∧
     (generateReport o1 o2 o3' u).cash_data = (generateReport o1 o2 o3 u).cash_data ∧
     (generateReport o1 o2 o3' u).effects =
       [Effect.successMsg "Analysis Completed ✅", Effect.header "📝 AI Summaries",
        Effect.write (generateReport o1 o2 o3 u).balance_summary,
        Effect.write (generateReport o1 o2 o3 u).profit_summary,
        Effect.write (generateReport o1 o2 o3' u).cash_summary,
        Effect.header "📈 Visualizations"]
         ++ visualize "Balance Sheet Data" (generateReport o1 o2 o3 u).balance_data
         ++ visualize "Profit & Loss Data" (generateReport o1 o2 o3 u).profit_data
         ++ visualize "Cash Flow Data" (generateReport o1 o2 o3 u).cash_data) :=
  ⟨⟨rfl, rfl, rfl, rfl, rfl, rfl⟩, ⟨rfl, rfl, rfl, rfl, rfl, rfl⟩,
   ⟨rfl, rfl, rfl, rfl, rfl, rfl⟩⟩

/-- C7: the presenter is total — for every input the output starts with the
title subheader and continues with exactly one of the three legal shapes
(table then chart, table then notice, or the no-data warning), the warning
shape occurring exactly for the Absent document. -/
theorem visualize_total (title : String) (data : Option DataFrame) :
    ∃ tail, visualize title data = Effect.subheader title :: tail ∧
      (tail = [Effect.warning "No data uploaded"] ∨
       (∃ df c, tail = [Effect.dataframe df, Effect.line_chart c]) ∨
       (∃ df, tail = [Effect.dataframe df, Effect.info "No numeric data available"])) ∧
      (tail = [Effect.warning "No data uploaded"] ↔ data = none) := by
  cases data with
  | none => exact ⟨_, rfl, Or.inl rfl, by simp⟩
  | some df =>
    by_cases h : (select_number df).empty
    · exact ⟨[Effect.dataframe df, Effect.info "No numeric data available"],
        by simp [visualize, h], Or.inr (Or.inr ⟨df, rfl⟩), by simp⟩
    · exact ⟨[Effect.dataframe df, Effect.line_chart (select_number df)],
        by simp [visualize, h, Bool.eq_false_iff.mpr h],
        Or.inr (Or.inl ⟨df, select_number df, rfl⟩), by simp⟩

/-- C8: when the secret key is missing from the environment the run halts at
the startup error — whatever was uploaded and whether or not the button is
pressed, the output is only the error message and no load, summarize or
render operation executes. -/
theorem missing_key_halts (env : String → Option String) (o1 o2 o3 : Oracle)
    (u : Uploads) (pressed : Bool) (h : env "GEMINI_API_KEY" = none) :
    runApp env o1 o2 o3 u pressed =
      ([Effect.errorMsg "API Key not found! Check .env file"], []) := by
  simp [runApp, startupCheck, h]

/-- Witness for C8 with an empty environment. -/
theorem missing_key_halts_w :
    ((fun _ => none : String → Option String) "GEMINI_API_KEY" = none) ∧
    runApp (fun _ => none) okOracle okOracle okOracle noUploads true =
      ([Effect.errorMsg "API Key not found! Check .env file"], []) :=
  ⟨rfl, missing_key_halts (fun _ => none) okOracle okOracle okOracle noUploads true rfl⟩

/-- Equal-length suffixes of the same list coincide. -/
theorem suffix_eq_of_length_eq {l₁ l₂ l₃ : List Char} (h1 : l₁ <:+ l₃)
    (h2 : l₂ <:+ l₃) (h : l₁.length = l₂.length) : l₁ = l₂ :=
  List.IsSuffix.eq_of_length (List.suffix_of_suffix_length_le h1 h2 h.le) h

/-- A suffix one element shorter than its host is the tail of the host. -/
theorem suffix_eq_drop_one {l₁ l₂ : List Char} (h : l₁ <:+ l₂)
    (hl : l₁.length + 1 = l₂.length) : l₁ = l₂.drop 1 := by
  obtain ⟨t, ht⟩ := h
  have hlen := congrArg List.length ht
  rw [List.length_append] at hlen
  have ht1 : t.length = 1 := by omega
  have hd := List.drop_left t l₁
  rw [ht, ht1] at hd
  exact hd.symm

/-- C9: the extension sniff of the loader is case-sensitive — a file whose
name ends in any case variant of ".csv" or ".xlsx" other than the exact
lowercase suffix loads as Absent, even when its content would parse under
either reader. -/
theorem load_file_case_sensitive (v : String) (g : UploadedFile)
    (hvar : v.data.map Char.toLower = ".csv".data ∨ v.data.map Char.toLower = ".xlsx".data)
    (hv_csv : v ≠ ".csv") (hv_xlsx : v ≠ ".xlsx")
    (hend : pyEndsWith g.name v = true) :
    load_file (some g) = none := by
  have hv : v.data <:+ g.name.data := List.isSuffixOf_iff_suffix.mp hend
  rcases hvar with hcsv | hxlsx
  · have hlen4 : v.data.length = 4 := by
      have hL := congrArg List.length hcsv
      rw [List.length_map] at hL
      exact hL.trans (by decide)
    apply load_file_none_of_not_ends
    · rw [Bool.eq_false_iff]
      intro hcontra
      have hsuf : ".csv".data <:+ g.name.data :=
        List.isSuffixOf_iff_suffix.mp hcontra
      have hlen : (".csv".data).length = v.data.length := by rw [hlen4]; decide
      have heq : ".csv".data = v.data := suffix_eq_of_length_eq hsuf hv hlen
      exact hv_csv (str_eq_of_data_eq v ".csv" heq.symm)
    · rw [Bool.eq_false_iff]
      intro hcontra
      have hsuf : ".xlsx".data <:+ g.name.data :=
        List.isSuffixOf_iff_suffix.mp hcontra
      have hvx : v.data <:+ ".xlsx".data :=
        List.suffix_of_suffix_length_le hv hsuf (by rw [hlen4]; decide)
      have hdrop : v.data = ".xlsx".data.drop 1 :=
        suffix_eq_drop_one hvx (by rw [hlen4]; decide)
      rw [hdrop] at hcsv
      exact absurd hcsv (by decide)
  · have hlen5 : v.data.length = 5 := by
      have hL := congrArg List.length hxlsx
      rw [List.length_map] at hL
      exact hL.trans (by decide)
    apply load_file_none_of_not_ends
    · rw [Bool.eq_false_iff]
      intro hcontra
      have hsuf : ".csv".data <:+ g.name.data :=
        List.isSuffixOf_iff_suffix.mp hcontra
      have hcv : ".csv".data <:+ v.data :=
        List.suffix_of_suffix_length_le hsuf hv (by rw [hlen5]; decide)
      have hdrop : ".csv".data = v.data.drop 1 :=
        suffix_eq_drop_one hcv (by rw [hlen5]; decide)
      have hmap := congrArg (List.drop 1) hxlsx
      rw [← List.map_drop, ← hdrop] at hmap
      exact absurd hmap (by decide)
    · rw [Bool.eq_false_iff]
      intro hcontra
      have hsuf : ".xlsx".data <:+ g.name.data :=
        List.isSuffixOf_iff_suffix.mp hcontra
      have hlen : (".xlsx".data).length = v.data.length := by rw [hlen5]; decide
      have heq : ".xlsx".data = v.data := suffix_eq_of_length_eq hsuf hv hlen
      exact hv_xlsx (str_eq_of_data_eq v ".xlsx" heq.symm)

/-- Witness for C9: "data.CSV" with parseable content under both readers
still loads as Absent. -/
theorem load_file_case_sensitive_w :
    (".CSV".data.map Char.toLower = ".csv".data) ∧
    pyEndsWith "data.CSV" ".CSV" = true ∧
    load_file (some { name := "data.CSV", csvParse := some sampleDf, xlsxParse := some sampleDf }) = none :=
  ⟨by decide, by decide,
    load_file_case_sensitive ".CSV"
      { name := "data.CSV", csvParse := some sampleDf, xlsxParse := some sampleDf }
      (Or.inl (by decide)) (by decide) (by decide) (by decide)⟩

/-- C10: a line chart is rendered iff the numeric projection is nonempty —
at least one numeric column and at least one row; in particular with numeric
columns but zero rows the no-numeric-data notice appears instead of a chart. -/
theorem visualize_chart_iff (title : String) (df : DataFrame) :
    ((∃ c, Effect.line_chart c ∈ visualize title (some df)) ↔
      ((select_number df).cols ≠ [] ∧ df.nrows ≠ 0)) ∧
    (df.nrows = 0 → Effect.info "No numeric data available" ∈ visualize title (some df)) := by
  constructor
  · constructor
    · rintro ⟨c, hc⟩
      have h := (visualize_chart_mem title df c).mp hc
      have h2 := (select_number_empty_iff df).mp h.2
      exact ⟨h2.1, h2.2⟩
    · rintro ⟨h1, h2⟩
      exact ⟨select_number df, (visualize_chart_mem title df _).mpr
        ⟨rfl, (select_number_empty_iff df).mpr ⟨h1, h2⟩⟩⟩
  · intro h0
    have he : (select_number df).empty = true := by
      simp [select_number, DataFrame.empty, h0]
    simp [visualize, he]

/-- Witness for C10 on the zero-row numeric table. -/
theorem visualize_chart_iff_w :
    zeroRowDf.nrows = 0 ∧
    Effect.info "No numeric data available" ∈ visualize "Cash Flow Data" (some zeroRowDf) :=
  ⟨rfl, (visualize_chart_iff "Cash Flow Data" zeroRowDf).2 rfl⟩

end FinAnalyzer
